import Mathlib

/-!
Shallow embedding of `src/validation/harness.py`, a test harness that
discovers fixture directories, builds each fixture through an external
toolchain (compiler → llc → clang), runs the produced binary and compares
its exit code and stdout against the fixture's expectation files.

External effects (subprocess results, file contents, the directory walk)
are passed in explicitly as data; the Lean functions mirror the control
flow of the Python source line by line.
-/

namespace Harness

/-! ### Python string primitives used by the harness -/

/-- Whitespace test used by Python's `str.strip()` / `int()` (ASCII range;
Python additionally strips some non-ASCII space characters, which never
occur in the fixtures at issue). -/
def pyIsSpace (c : Char) : Bool :=
  c == ' ' || c == '\t' || c == '\n' || c == '\r' || c == '\x0b' || c == '\x0c'

/-- Model of Python `str.strip()` with no arguments: remove leading and
trailing whitespace. -/
def pyStrip (l : List Char) : List Char :=
  ((l.dropWhile pyIsSpace).reverse.dropWhile pyIsSpace).reverse

/-- Digit run accepted by Python `int()` after the optional sign: one or
more decimal digits, with single underscores allowed strictly between two
digits (`1_0` is accepted, `_1`, `1_`, `1__0` are not). -/
def pyDigits : List Char → Bool
  | [] => false
  | [c] => c.isDigit
  | c :: '_' :: rest => c.isDigit && pyDigits rest
  | c :: rest => c.isDigit && pyDigits rest

/-- Numeric value of a digit-and-underscore run (underscores are grouping
only and are skipped). -/
def digitsVal (l : List Char) : Nat :=
  l.foldl (fun acc c => if c == '_' then acc else acc * 10 + (c.toNat - 48)) 0

/-- Model of Python `int(str)` on an already-stripped character list:
an optional sign followed by a valid digit run. -/
def pyIntCore : List Char → Option Int
  | '+' :: rest => if pyDigits rest then some (digitsVal rest) else none
  | '-' :: rest => if pyDigits rest then some (-(digitsVal rest : Int)) else none
  | l => if pyDigits l then some (digitsVal l) else none

/-- Model of Python `int(str)`: strip whitespace, then parse an optionally
signed decimal integer; `none` models the `ValueError` raised on any other
content.  (Python also accepts non-ASCII decimal digits; the fixture files
at issue are ASCII.) -/
def pyInt (s : String) : Option Int := pyIntCore (pyStrip s.data)

/-- Model of the Unicode `Numeric` character property tested by Python
`str.isnumeric()`: ASCII decimal digits plus a representative table of the
non-decimal numeric characters Python also accepts (superscripts, vulgar
fractions, circled digits, Arabic-Indic digits). -/
def pyNumericChar (c : Char) : Bool :=
  c.isDigit ||
  c ∈ ['¹', '²', '³', '¼', '½', '¾', '①', '②', '③',
       '٠', '١', '٢', '٣', '٤', '٥', '٦', '٧', '٨', '٩']

/-- Model of Python `str.isnumeric()`: true iff the string is nonempty and
every character is numeric. -/
def pyIsNumeric (l : List Char) : Bool :=
  !l.isEmpty && l.all pyNumericChar

/-- The single-quote character, used by Python `repr` of strings. -/
def quoteChar : Char := Char.ofNat 39

/-- Escape one character the way Python `repr` of a string does (the cases
that can occur in the messages at issue). -/
def pyEscapeChar (c : Char) : List Char :=
  if c == '\n' then ['\\', 'n']
  else if c == '\t' then ['\\', 't']
  else if c == '\r' then ['\\', 'r']
  else if c == '\\' then ['\\', '\\']
  else if c == quoteChar then ['\\', quoteChar]
  else [c]

/-- Model of Python `repr` of a string: single-quoted, with escapes.
`unittest.assertEqual` embeds the repr of both compared values in its
failure message. -/
def pyRepr (s : String) : String :=
  String.mk (quoteChar :: (s.data.foldr (fun c acc => pyEscapeChar c ++ acc) []) ++ [quoteChar])

/-! ### Data model: external process results and fixture inputs -/

/-- Result of one external process invocation whose output the harness
captures: exit code plus captured stdout text. -/
structure ToolResult where
  returncode : Int
  stdout : String
deriving DecidableEq

/-- The external toolchain's behaviour for one fixture's build
(`ValidationTestCase.build`, harness.py lines 56-74).  The compile stage is
invoked with `stdout=subprocess.PIPE, stderr=subprocess.STDOUT`, so its
combined output is captured; the assemble (`llc`) and link (`clang`)
stages are invoked with no redirection, so whatever they print goes to the
console (`assembleOutput` / `linkOutput`) and is NOT available to the
harness — only their exit codes are. -/
structure BuildEnv where
  compile : ToolResult
  assembleReturncode : Int
  assembleOutput : String
  linkReturncode : Int
  linkOutput : String
deriving DecidableEq

/-- Contents of a fixture directory's expectation files: `none` models the
file not existing (harness.py lines 77-90). -/
structure FixtureDir where
  exitExpected : Option String
  stdoutExpected : Option String
deriving DecidableEq

/-- Everything external that one fixture's run observes: its directory,
the mktemp result, the toolchain behaviour, and the behaviour of the
produced program when run. -/
structure FixtureEnv where
  testDir : String
  tmpdir : String
  mktempOk : Bool
  dir : FixtureDir
  buildEnv : BuildEnv
  progResult : ToolResult
deriving DecidableEq

/-- Outcome of one fixture's run in unittest's taxonomy: a pass, a
`failure` (an `assertEqual` mismatch, carrying the assertion message), or
an `error` (any other exception, carrying its message). -/
inductive Outcome where
  | pass : Outcome
  | failure : String → Outcome
  | error : String → Outcome
deriving DecidableEq

/-! ### Build pipeline (`ValidationTestCase.build`, lines 56-74) -/

/-- Model of `ValidationTestCase.build`: three external stages in
sequence; a non-zero exit at any stage raises an Exception.  Only the
compile stage's message embeds the tool's captured combined output; the
assemble and link messages name the test file only, because those stages'
output is not captured. -/
def build (testDir tmpdir : String) (env : BuildEnv) : Except String String :=
  let test_file := testDir ++ "/main.c"
  if env.compile.returncode ≠ 0 then
    .error ("Failed to build test program " ++ test_file ++ "\n" ++ env.compile.stdout)
  else if env.assembleReturncode ≠ 0 then
    .error ("Failed to assemble test program " ++ test_file)
  else if env.linkReturncode ≠ 0 then
    .error ("Failed to link test program " ++ test_file)
  else
    .ok (tmpdir ++ "/program")

/-! ### Expectations (`expected_exit_code` / `expected_stdout`, lines 77-90) -/

/-- Model of `ValidationTestCase.expected_exit_code`: `0` when
`exit.expected` is absent, otherwise `int(file content)`; a content that
`int()` rejects raises `ValueError` (the `.error` case). -/
def expected_exit_code (d : FixtureDir) : Except String Int :=
  match d.exitExpected with
  | none => .ok 0
  | some s =>
    match pyInt s with
    | some n => .ok n
    | none => .error ("invalid literal for int() with base 10: " ++ pyRepr s)

/-- Model of `ValidationTestCase.expected_stdout`: empty string when
`stdout.expected` is absent, otherwise the file content. -/
def expected_stdout (d : FixtureDir) : String :=
  match d.stdoutExpected with
  | none => ""
  | some s => s

/-! ### Execution and assertion (`runTest`, lines 47-53) -/

/-- Failure message of the exit-code `assertEqual` (line 51): unittest
prepends the standard `actual != expected` part to the custom message. -/
def exitMismatchMsg (actual expected : Int) : String :=
  toString actual ++ " != " ++ toString expected ++
    " : Program exited with unexpected exit code " ++ toString actual

/-- Failure message of the stdout `assertEqual` (line 53): unittest's
standard part embeds the repr of both strings (the real message also
appends a unified diff of the two, elided here) before the custom
message. -/
def stdoutMismatchMsg (actual expected : String) : String :=
  pyRepr actual ++ " != " ++ pyRepr expected ++
    " : Program produced unexpected output (stdout)"

/-- Model of `ValidationTestCase.runTest`: build (an Exception becomes a
unittest error), evaluate `expected_exit_code()` (a `ValueError` becomes a
unittest error), then assert the exit code and — only if that assertion
passed, since a failing `assertEqual` raises — assert the stdout. -/
def runTest (env : FixtureEnv) : Outcome :=
  match build env.testDir env.tmpdir env.buildEnv with
  | .error msg => .error msg
  | .ok _binary =>
    match expected_exit_code env.dir with
    | .error msg => .error msg
    | .ok n =>
      if env.progResult.returncode ≠ n then
        .failure (exitMismatchMsg env.progResult.returncode n)
      else if env.progResult.stdout ≠ expected_stdout env.dir then
        .failure (stdoutMismatchMsg env.progResult.stdout (expected_stdout env.dir))
      else
        .pass

/-- Outcome of one fixture as unittest records it: `setUp` raising (mktemp
failure, lines 38-41) is an error; otherwise the `runTest` outcome. -/
def fixtureOutcome (env : FixtureEnv) : Outcome :=
  if env.mktempOk then runTest env else .error "Failed to create temporary directory"

/-! ### Scratch directory lifecycle (`setUp`/`tearDown`, lines 36-45) -/

/-- Model of `rm -rf dir` on a filesystem represented as the list of
existing paths: removes the directory and everything under it. -/
def rmRf (fs : List String) (dir : String) : List String :=
  fs.filter (fun p => !(p == dir || (dir ++ "/").isPrefixOf p))

/-- One fixture's run threaded through a filesystem state: `setUp` creates
the scratch directory (when mktemp succeeds), the build/run deposits some
files (`created`, all inside the scratch directory) and produces the
outcome, and `tearDown` — which unittest runs on every exit path after a
successful `setUp`, whether `runTest` passed, failed an assertion or
raised — deletes the scratch directory recursively.  When `setUp` itself
raises, no directory was created and `tearDown` does not run. -/
def runFixtureFS (fs : List String) (created : List String) (env : FixtureEnv) :
    Outcome × List String :=
  if env.mktempOk then
    (runTest env, rmRf (fs ++ env.tmpdir :: created) env.tmpdir)
  else
    (.error "Failed to create temporary directory", fs)

/-! ### Discovery (`discover_suites`, lines 93-116) -/

/-- A named unittest suite: the suite's name and its tests (fixture
directory paths) in insertion order — `unittest.TestSuite` runs tests in
the order `addTest` added them. -/
structure NamedTestSuite where
  name : String
  tests : List String
deriving DecidableEq

/-- Model of line 102's test: `dir[0:3].isnumeric()` — Python slicing
clamps, so this is the first min(3, length) characters. -/
def qualifies (dir : String) : Bool :=
  pyIsNumeric (dir.data.take 3)

/-- Model of `tests[root].append(dir)` on a Python dict (insertion-ordered
association list): append to the root's entry, creating the entry at the
end when absent (lines 103-105). -/
def addTest (tests : List (String × List String)) (root d : String) :
    List (String × List String) :=
  match tests with
  | [] => [(root, [d])]
  | (r, ds) :: rest =>
    if r = root then (r, ds ++ [d]) :: rest
    else (r, ds) :: addTest rest root d

/-- Processing of one `os.walk` entry (the inner `for dir in dirs` loop,
lines 100-105): each qualifying directory is appended to its root's
entry. -/
def collectRoot (tests : List (String × List String)) (root : String)
    (dirs : List String) : List (String × List String) :=
  dirs.foldl (fun t d => if qualifies d then addTest t root d else t) tests

/-- The first loop of `discover_suites` (lines 99-105): fold the walk
entries into the ordered dict of root → qualifying directories.  The walk
is passed in as data: the list of `(root, dirs)` pairs `os.walk` yields,
in yield order. -/
def collectTests (walk : List (String × List String)) : List (String × List String) :=
  walk.foldl (fun tests rd => collectRoot tests rd.1 rd.2) []

/-- Model of `os.path.relpath(root, base)` for the paths produced by
`os.walk(base)`: every walked root is `base` itself or `base ++ "/" ++
suffix`. -/
def relpathModel (root base : String) : String :=
  if root = base then "."
  else if (base ++ "/").isPrefixOf root then root.drop (base.length + 1)
  else root

/-- Suite naming (lines 108-110): the root's path relative to the script
directory, with "." replaced by "root". -/
def suiteName (scriptDir root : String) : String :=
  let n := relpathModel root scriptDir
  if n = "." then "root" else n

/-- Model of `discover_suites` (lines 93-116): group qualifying
directories by walk root, then build one named suite per root, each test
being `os.path.join(root, dir)`. -/
def discover_suites (scriptDir : String) (walk : List (String × List String)) :
    List NamedTestSuite :=
  (collectTests walk).map
    (fun rd => ⟨suiteName scriptDir rd.1, rd.2.map (fun d => rd.1 ++ "/" ++ d)⟩)

/-- The dict entry one walk entry contributes when the walk's roots are
distinct: its qualifying directories in enumeration order, or nothing when
none qualify. -/
def suiteEntry (rd : String × List String) : Option (String × List String) :=
  if rd.2.filter qualifies = [] then none
  else some (rd.1, rd.2.filter qualifies)

/-! ### Runner and aggregation (`run`, lines 119-135) -/

/-- unittest's verdict for a list of outcomes: successful iff there were
no failures and no errors. -/
def wasSuccessful (outcomes : List Outcome) : Bool :=
  outcomes.all (fun o => match o with | Outcome.pass => true | _ => false)

/-- Running one suite: each test runs through setUp → runTest → tearDown
in order, and each outcome is recorded; a failing or erroring test does
not stop the runner.  `envOf` supplies each test's external behaviour. -/
def runSuite (envOf : String → FixtureEnv) (suite : NamedTestSuite) : List Outcome :=
  suite.tests.map (fun t => fixtureOutcome (envOf t))

/-- Model of `run` (lines 119-135): discover the suites, run each in
order, accumulate `success &= result.wasSuccessful()`, and exit 0 on
success, 1 otherwise. -/
def run (scriptDir : String) (walk : List (String × List String))
    (envOf : String → FixtureEnv) : Nat :=
  let suites := discover_suites scriptDir walk
  let success := suites.foldl (fun s suite => s && wasSuccessful (runSuite envOf suite)) true
  if success then 0 else 1

/-! ### Substring containment, used to state what a diagnostic includes -/

/-- The string `sub` occurs contiguously inside `s`. -/
def strContains (s sub : String) : Prop :=
  ∃ pre post : List Char, s.data = pre ++ sub.data ++ post

/-- Executable version of `strContains`. -/
def containsSub (s sub : String) : Bool :=
  (List.range (s.data.length + 1)).any
    (fun i => ((s.data.drop i).take sub.data.length) == sub.data)

/-- All three build stages exited with code 0. -/
def buildOk (env : FixtureEnv) : Prop :=
  env.buildEnv.compile.returncode = 0 ∧ env.buildEnv.assembleReturncode = 0 ∧
    env.buildEnv.linkReturncode = 0

/-! ### Helper lemmas -/

theorem containsSub_iff (s sub : String) : containsSub s sub = true ↔ strContains s sub := by
  constructor
  · intro h
    simp only [containsSub, List.any_eq_true, List.mem_range, beq_iff_eq] at h
    obtain ⟨i, _, heq⟩ := h
    refine ⟨s.data.take i, (s.data.drop i).drop sub.data.length, ?_⟩
    have h2 : s.data.drop i = sub.data ++ (s.data.drop i).drop sub.data.length := by
      conv_lhs => rw [← List.take_append_drop sub.data.length (s.data.drop i)]
      rw [heq]
    conv_lhs => rw [← List.take_append_drop i s.data, h2]
    rw [List.append_assoc]
  · rintro ⟨pre, post, hp⟩
    simp only [containsSub, List.any_eq_true, List.mem_range, beq_iff_eq]
    refine ⟨pre.length, ?_, ?_⟩
    · rw [hp]
      simp
      omega
    · rw [hp, List.append_assoc, List.drop_left, List.take_left]

theorem strContains_of_append (s a b c : String) (h : s = a ++ b ++ c) : strContains s b := by
  refine ⟨a.data, c.data, ?_⟩
  subst h
  simp

theorem wasSuccessful_iff (outcomes : List Outcome) :
    wasSuccessful outcomes = true ↔ ∀ o ∈ outcomes, o = Outcome.pass := by
  simp only [wasSuccessful, List.all_eq_true]
  constructor
  · intro h o ho
    have := h o ho
    cases o <;> simp_all
  · intro h o ho
    rw [h o ho]

theorem foldl_and_eq (f : α → Bool) (l : List α) (b : Bool) :
    l.foldl (fun s x => s && f x) b = (b && l.all f) := by
  induction l generalizing b with
  | nil => simp
  | cons x xs ih => simp [List.foldl_cons, ih, Bool.and_assoc]

theorem dropWhile_append_all {p : Char → Bool} {w l : List Char}
    (h : ∀ c ∈ w, p c = true) : (w ++ l).dropWhile p = l.dropWhile p := by
  induction w with
  | nil => rfl
  | cons c cs ih =>
    rw [List.cons_append, List.dropWhile_cons, h c (List.mem_cons_self c cs)]
    simp only [if_true]
    exact ih (fun c' hc' => h c' (List.mem_cons_of_mem c hc'))

theorem dropWhile_head_false {p : Char → Bool} {l : List Char}
    (hh : ∀ c, l.head? = some c → p c = false) : l.dropWhile p = l := by
  cases l with
  | nil => rfl
  | cons c t =>
    rw [List.dropWhile_cons, hh c rfl]
    simp

/-- Stripping whitespace from a whitespace-padded token whose own ends are
not whitespace recovers the token. -/
theorem pyStrip_pad {w1 w2 core : List Char}
    (h1 : ∀ c ∈ w1, pyIsSpace c = true) (h2 : ∀ c ∈ w2, pyIsSpace c = true)
    (hne : core ≠ [])
    (hh : ∀ c, core.head? = some c → pyIsSpace c = false)
    (hl : ∀ c, core.getLast? = some c → pyIsSpace c = false) :
    pyStrip (w1 ++ core ++ w2) = core := by
  unfold pyStrip
  rw [List.append_assoc, dropWhile_append_all h1]
  have hstep1 : (core ++ w2).dropWhile pyIsSpace = core ++ w2 := by
    refine dropWhile_head_false ?_
    intro c hc
    apply hh
    cases core with
    | nil => exact absurd rfl hne
    | cons a t => simpa using hc
  rw [hstep1, List.reverse_append, dropWhile_append_all (by simpa using h2)]
  have hstep2 : core.reverse.dropWhile pyIsSpace = core.reverse := by
    refine dropWhile_head_false ?_
    intro c hc
    apply hl
    rwa [List.head?_reverse] at hc
  rw [hstep2, List.reverse_reverse]

theorem addTest_of_not_mem (tests : List (String × List String)) (root d : String)
    (h : root ∉ tests.map Prod.fst) : addTest tests root d = tests ++ [(root, [d])] := by
  induction tests with
  | nil => rfl
  | cons hd tl ih =>
    obtain ⟨r, ds⟩ := hd
    simp only [List.map_cons, List.mem_cons] at h
    push_neg at h
    rw [addTest, if_neg (fun hh => h.1 hh.symm), ih h.2]
    rfl

theorem addTest_append_last (tests : List (String × List String)) (root d : String)
    (ds : List String) (h : root ∉ tests.map Prod.fst) :
    addTest (tests ++ [(root, ds)]) root d = tests ++ [(root, ds ++ [d])] := by
  induction tests with
  | nil => simp [addTest]
  | cons hd tl ih =>
    obtain ⟨r, ds'⟩ := hd
    simp only [List.map_cons, List.mem_cons] at h
    push_neg at h
    rw [List.cons_append, addTest, if_neg (fun hh => h.1 hh.symm), ih h.2]
    rfl

theorem collectRoot_go (root : String) (dirs : List String) :
    ∀ (tests : List (String × List String)) (ds : List String),
    root ∉ tests.map Prod.fst →
    dirs.foldl (fun t d => if qualifies d then addTest t root d else t) (tests ++ [(root, ds)]) =
      tests ++ [(root, ds ++ dirs.filter qualifies)] := by
  induction dirs with
  | nil =>
    intro tests ds _
    simp
  | cons x xs ih =>
    intro tests ds h
    rw [List.foldl_cons]
    by_cases hq : qualifies x = true
    · rw [if_pos hq, addTest_append_last tests root x ds h, ih tests (ds ++ [x]) h]
      simp [List.filter_cons, hq]
    · rw [if_neg (by simp [hq]), ih tests ds h]
      simp [List.filter_cons, hq]

theorem collectRoot_eq (tests : List (String × List String)) (root : String)
    (dirs : List String) (h : root ∉ tests.map Prod.fst) :
    collectRoot tests root dirs =
      if dirs.filter qualifies = [] then tests
      else tests ++ [(root, dirs.filter qualifies)] := by
  induction dirs with
  | nil => simp [collectRoot]
  | cons x xs ih =>
    by_cases hq : qualifies x = true
    · unfold collectRoot
      rw [List.foldl_cons, if_pos hq, addTest_of_not_mem tests root x h,
        collectRoot_go root xs tests [x] h]
      have : (x :: xs).filter qualifies = x :: xs.filter qualifies := by
        simp [List.filter_cons, hq]
      rw [this]
      simp
    · unfold collectRoot
      rw [List.foldl_cons, if_neg (by simp [hq])]
      unfold collectRoot at ih
      rw [ih]
      have : (x :: xs).filter qualifies = xs.filter qualifies := by
        simp [List.filter_cons, hq]
      rw [this]

theorem collectTests_go (walk : List (String × List String)) :
    ∀ (tests : List (String × List String)),
    (walk.map Prod.fst).Nodup →
    (∀ rd ∈ walk, rd.1 ∉ tests.map Prod.fst) →
    walk.foldl (fun t rd => collectRoot t rd.1 rd.2) tests =
      tests ++ walk.filterMap suiteEntry := by
  induction walk with
  | nil =>
    intro tests _ _
    simp
  | cons rd rest ih =>
    intro tests hnd hks
    obtain ⟨root, dirs⟩ := rd
    rw [List.foldl_cons]
    have hroot : root ∉ tests.map Prod.fst := hks _ (List.mem_cons_self _ _)
    rw [collectRoot_eq tests root dirs hroot]
    simp only [List.map_cons, List.nodup_cons] at hnd
    by_cases hf : dirs.filter qualifies = []
    · rw [if_pos hf, ih tests hnd.2 (fun rd' hrd' => hks rd' (List.mem_cons_of_mem _ hrd'))]
      rw [List.filterMap_cons]
      have : suiteEntry (root, dirs) = none := by simp [suiteEntry, hf]
      rw [this]
    · rw [if_neg hf]
      have hkeys : ∀ rd' ∈ rest, rd'.1 ∉ (tests ++ [(root, dirs.filter qualifies)]).map Prod.fst := by
        intro rd' hrd' hcontra
        rw [List.map_append] at hcontra
        rcases List.mem_append.mp hcontra with hc | hc
        · exact hks rd' (List.mem_cons_of_mem _ hrd') hc
        · simp only [List.map_cons, List.map_nil, List.mem_singleton] at hc
          apply hnd.1
          rw [← hc]
          exact List.mem_map_of_mem Prod.fst hrd'
      rw [ih (tests ++ [(root, dirs.filter qualifies)]) hnd.2 hkeys]
      rw [List.filterMap_cons]
      have : suiteEntry (root, dirs) = some (root, dirs.filter qualifies) := by
        simp [suiteEntry, hf]
      rw [this, List.append_assoc]
      rfl

/-! ### Claim theorems -/

/-- C8: a fixture lacking `exit.expected` is judged against expected exit
code 0, and a fixture lacking `stdout.expected` is judged against expected
output "". -/
theorem c8_expectation_defaults (d : FixtureDir) :
    (d.exitExpected = none → expected_exit_code d = .ok 0) ∧
    (d.stdoutExpected = none → expected_stdout d = "") := by
  constructor
  · intro h
    simp [expected_exit_code, h]
  · intro h
    simp [expected_stdout, h]

theorem c8_expectation_defaults_witness :
    expected_exit_code ⟨none, none⟩ = .ok 0 ∧ expected_stdout ⟨none, none⟩ = "" :=
  ⟨(c8_expectation_defaults ⟨none, none⟩).1 rfl, (c8_expectation_defaults ⟨none, none⟩).2 rfl⟩

/-- C9: the stdout assertion is exact string equality — a fixture whose
`stdout.expected` holds "42\n" while the (successfully built, exit-code
matching) program prints "42" without the trailing newline fails with the
stdout-mismatch reason. -/
theorem c9_exact_stdout_comparison (env : FixtureEnv)
    (hmk : env.mktempOk = true) (hb : buildOk env)
    (hexit : expected_exit_code env.dir = .ok env.progResult.returncode)
    (hexp : env.dir.stdoutExpected = some "42\n")
    (hact : env.progResult.stdout = "42") :
    fixtureOutcome env = .failure (stdoutMismatchMsg "42" "42\n") := by
  obtain ⟨h1, h2, h3⟩ := hb
  simp [fixtureOutcome, hmk, runTest, build, h1, h2, h3, hexit, expected_stdout, hexp, hact]

theorem c9_exact_stdout_comparison_witness :
    fixtureOutcome ⟨"t", "m", true, ⟨none, some "42\n"⟩, ⟨⟨0, ""⟩, 0, "", 0, ""⟩, ⟨0, "42"⟩⟩ =
      .failure (stdoutMismatchMsg "42" "42\n") :=
  c9_exact_stdout_comparison ⟨"t", "m", true, ⟨none, some "42\n"⟩, ⟨⟨0, ""⟩, 0, "", 0, ""⟩, ⟨0, "42"⟩⟩
    rfl ⟨rfl, rfl, rfl⟩ rfl rfl rfl

/-- C5: for every fixture run whose scratch-directory creation succeeded —
whatever the outcome (pass, build failure, assertion failure, judgment
error) — the scratch directory and everything under it are gone from the
filesystem afterwards, and the recorded outcome is the fixture's own. -/
theorem c5_scratch_dir_removed (fs created : List String) (env : FixtureEnv)
    (hmk : env.mktempOk = true) :
    (runFixtureFS fs created env).1 = fixtureOutcome env ∧
    env.tmpdir ∉ (runFixtureFS fs created env).2 ∧
    ∀ p ∈ (runFixtureFS fs created env).2, (env.tmpdir ++ "/").isPrefixOf p = false := by
  refine ⟨?_, ?_, ?_⟩
  · simp [runFixtureFS, hmk, fixtureOutcome]
  · intro hmem
    simp only [runFixtureFS, hmk, if_true, rmRf] at hmem
    rw [List.mem_filter] at hmem
    simp at hmem
  · intro p hmem
    simp only [runFixtureFS, hmk, if_true, rmRf] at hmem
    rw [List.mem_filter] at hmem
    have h2 := hmem.2
    simp only [Bool.not_eq_true', Bool.or_eq_false_iff] at h2
    exact h2.2

theorem c5_scratch_dir_removed_witness :
    (runFixtureFS ["keep"] ["m/program.ll"] ⟨"t", "m", true, ⟨none, none⟩, ⟨⟨1, "err"⟩, 0, "", 0, ""⟩, ⟨0, ""⟩⟩).1 =
      fixtureOutcome ⟨"t", "m", true, ⟨none, none⟩, ⟨⟨1, "err"⟩, 0, "", 0, ""⟩, ⟨0, ""⟩⟩ ∧
    "m" ∉ (runFixtureFS ["keep"] ["m/program.ll"] ⟨"t", "m", true, ⟨none, none⟩, ⟨⟨1, "err"⟩, 0, "", 0, ""⟩, ⟨0, ""⟩⟩).2 :=
  ⟨(c5_scratch_dir_removed ["keep"] ["m/program.ll"] _ rfl).1,
   (c5_scratch_dir_removed ["keep"] ["m/program.ll"] _ rfl).2.1⟩

/-- C1 counterexample: a run where BOTH the exit code and the stdout
mismatch produces a single failure whose reason is the exit-code message
only — the stdout assertion was never evaluated, because the failing
exit-code `assertEqual` raises first.  This falsifies "both assertions are
evaluated, and a mismatch on either one is reported as a distinct failure
reason". -/
theorem c1_both_mismatch_single_reason :
    fixtureOutcome ⟨"t", "m", true, ⟨none, some "x"⟩, ⟨⟨0, ""⟩, 0, "", 0, ""⟩, ⟨4, "y"⟩⟩ =
      .failure "4 != 0 : Program exited with unexpected exit code 4" ∧
    ("y" : String) ≠ expected_stdout ⟨none, some "x"⟩ ∧
    fixtureOutcome ⟨"t", "m", true, ⟨none, some "x"⟩, ⟨⟨0, ""⟩, 0, "", 0, ""⟩, ⟨4, "y"⟩⟩ ≠
      .failure (stdoutMismatchMsg "y" (expected_stdout ⟨none, some "x"⟩)) := by
  refine ⟨rfl, by decide, by decide⟩

/-- C1 (amended): the two assertions are evaluated in sequence, exit code
first; the first mismatch is reported as the failure, and its diagnostic
includes both the actual and the expected value; the stdout assertion is
evaluated only when the exit-code assertion passed. -/
theorem c1_assertion_order_and_diagnostics (env : FixtureEnv) (n : Int)
    (hmk : env.mktempOk = true) (hb : buildOk env)
    (hexp : expected_exit_code env.dir = .ok n) :
    (env.progResult.returncode ≠ n →
      fixtureOutcome env = .failure (exitMismatchMsg env.progResult.returncode n) ∧
      strContains (exitMismatchMsg env.progResult.returncode n) (toString env.progResult.returncode) ∧
      strContains (exitMismatchMsg env.progResult.returncode n) (toString n)) ∧
    (env.progResult.returncode = n → env.progResult.stdout ≠ expected_stdout env.dir →
      fixtureOutcome env =
        .failure (stdoutMismatchMsg env.progResult.stdout (expected_stdout env.dir)) ∧
      strContains (stdoutMismatchMsg env.progResult.stdout (expected_stdout env.dir))
        (pyRepr env.progResult.stdout) ∧
      strContains (stdoutMismatchMsg env.progResult.stdout (expected_stdout env.dir))
        (pyRepr (expected_stdout env.dir))) := by
  obtain ⟨h1, h2, h3⟩ := hb
  constructor
  · intro hne
    refine ⟨?_, ?_, ?_⟩
    · simp [fixtureOutcome, hmk, runTest, build, h1, h2, h3, hexp, hne]
    · exact strContains_of_append _ "" _
        (" != " ++ toString n ++ " : Program exited with unexpected exit code " ++
          toString env.progResult.returncode) (by simp [exitMismatchMsg, String.append_assoc])
    · exact strContains_of_append _ (toString env.progResult.returncode ++ " != ") _
        (" : Program exited with unexpected exit code " ++ toString env.progResult.returncode)
        (by simp [exitMismatchMsg, String.append_assoc])
  · intro heq hne
    refine ⟨?_, ?_, ?_⟩
    · simp [fixtureOutcome, hmk, runTest, build, h1, h2, h3, hexp, heq, hne]
    · exact strContains_of_append _ "" _
        (" != " ++ pyRepr (expected_stdout env.dir) ++
          " : Program produced unexpected output (stdout)")
        (by simp [stdoutMismatchMsg, String.append_assoc])
    · exact strContains_of_append _ (pyRepr env.progResult.stdout ++ " != ") _
        (" : Program produced unexpected output (stdout)")
        (by simp [stdoutMismatchMsg, String.append_assoc])

theorem c1_assertion_order_witness :
    fixtureOutcome ⟨"t", "m", true, ⟨none, none⟩, ⟨⟨0, ""⟩, 0, "", 0, ""⟩, ⟨4, ""⟩⟩ =
      .failure (exitMismatchMsg 4 0) ∧
    strContains (exitMismatchMsg 4 0) (toString (4 : Int)) ∧
    strContains (exitMismatchMsg 4 0) (toString (0 : Int)) :=
  (c1_assertion_order_and_diagnostics
    ⟨"t", "m", true, ⟨none, none⟩, ⟨⟨0, ""⟩, 0, "", 0, ""⟩, ⟨4, ""⟩⟩ 0
    rfl ⟨rfl, rfl, rfl⟩ rfl).1 (by decide)

/-- C2: the code marks a walked directory as a fixture when
`dir[0:3].isnumeric()` holds; for the two-character name "12" the slice is
"12", which is numeric, so the directory IS discovered as a fixture even
though its name is shorter than three characters — contradicting the claim
(and the code's own comment "Tests are directories that start with 3+
numbers"). -/
theorem c2_short_numeric_name_discovered :
    discover_suites "s" [("s", ["12"])] = [⟨"root", ["s/12"]⟩] ∧
    "12".length < 3 ∧ qualifies "12" = true := by
  refine ⟨rfl, by decide, by decide⟩

/-- C7: the process exit status is 0 iff every fixture of every discovered
suite passed, it is always 0 or 1, and a walk of an empty tree (the walk
yields only the root entry, with no directories) discovers zero suites and
exits 0. -/
theorem c7_exit_status_verdict (scriptDir : String) (walk : List (String × List String))
    (envOf : String → FixtureEnv) :
    (run scriptDir walk envOf = 0 ↔
      ∀ suite ∈ discover_suites scriptDir walk, ∀ t ∈ suite.tests,
        fixtureOutcome (envOf t) = Outcome.pass) ∧
    (run scriptDir walk envOf = 0 ∨ run scriptDir walk envOf = 1) ∧
    discover_suites scriptDir [(scriptDir, [])] = [] ∧
    run scriptDir [(scriptDir, [])] envOf = 0 := by
  refine ⟨?_, ?_, rfl, rfl⟩
  · rw [run]
    simp only [foldl_and_eq, Bool.true_and]
    constructor
    · intro h suite hs t ht
      have hall : (discover_suites scriptDir walk).all
          (fun suite => wasSuccessful (runSuite envOf suite)) = true := by
        by_contra hc
        simp [hc] at h
      rw [List.all_eq_true] at hall
      have := (wasSuccessful_iff _).mp (hall suite hs)
      have hmem : fixtureOutcome (envOf t) ∈ runSuite envOf suite := by
        simp only [runSuite]
        exact List.mem_map_of_mem _ ht
      exact this _ hmem
    · intro h
      have hall : (discover_suites scriptDir walk).all
          (fun suite => wasSuccessful (runSuite envOf suite)) = true := by
        rw [List.all_eq_true]
        intro suite hs
        rw [wasSuccessful_iff]
        intro o ho
        simp only [runSuite, List.mem_map] at ho
        obtain ⟨t, ht, rfl⟩ := ho
        exact h suite hs t ht
      simp [hall]
  · rw [run]
    by_cases h : (discover_suites scriptDir walk).foldl
        (fun s suite => s && wasSuccessful (runSuite envOf suite)) true = true
    · left
      simp [h]
    · right
      simp only [Bool.not_eq_true] at h
      simp [h]

theorem c7_exit_status_verdict_witness :
    (run "s" [("s", ["001-a"])]
        (fun t => ⟨t, "m", true, ⟨none, none⟩, ⟨⟨0, ""⟩, 0, "", 0, ""⟩, ⟨0, ""⟩⟩) = 0 ↔
      ∀ suite ∈ discover_suites "s" [("s", ["001-a"])], ∀ t ∈ suite.tests,
        fixtureOutcome ((fun t => (⟨t, "m", true, ⟨none, none⟩, ⟨⟨0, ""⟩, 0, "", 0, ""⟩, ⟨0, ""⟩⟩ :
          FixtureEnv)) t) = Outcome.pass) ∧
    discover_suites "s" [("s", [])] = [] ∧
    run "s" [("s", [])]
      (fun t => ⟨t, "m", true, ⟨none, none⟩, ⟨⟨0, ""⟩, 0, "", 0, ""⟩, ⟨0, ""⟩⟩) = 0 :=
  ⟨(c7_exit_status_verdict "s" [("s", ["001-a"])]
      (fun t => ⟨t, "m", true, ⟨none, none⟩, ⟨⟨0, ""⟩, 0, "", 0, ""⟩, ⟨0, ""⟩⟩)).1,
   (c7_exit_status_verdict "s" [("s", [])]
      (fun t => ⟨t, "m", true, ⟨none, none⟩, ⟨⟨0, ""⟩, 0, "", 0, ""⟩, ⟨0, ""⟩⟩)).2.2.1,
   (c7_exit_status_verdict "s" [("s", [])]
      (fun t => ⟨t, "m", true, ⟨none, none⟩, ⟨⟨0, ""⟩, 0, "", 0, ""⟩, ⟨0, ""⟩⟩)).2.2.2⟩

/-- C4 counterexample: a codegen-stage (llc) failure whose tool printed
"boom" is recorded with a fixed message that does not contain the tool's
output, and the build result is identical whatever the tool printed — so
stages 2 and 3 do NOT follow stage 1's capture-and-attach contract. -/
theorem c4_stage2_output_not_captured :
    build "t" "m" ⟨⟨0, ""⟩, 1, "boom", 0, ""⟩ =
      .error "Failed to assemble test program t/main.c" ∧
    build "t" "m" ⟨⟨0, ""⟩, 1, "boom", 0, ""⟩ = build "t" "m" ⟨⟨0, ""⟩, 1, "", 0, ""⟩ ∧
    containsSub "Failed to assemble test program t/main.c" "boom" = false := by
  refine ⟨rfl, rfl, by decide⟩

/-- C4 (amended): a non-zero exit of any of the three stages is a fatal
build error for the fixture; the translate stage attaches the compiler's
combined captured output to the failure message, while the codegen and
link stages fail with a fixed message that is independent of — and does
not include — their tools' output. -/
theorem c4_build_stage_contract (td tmp : String) (env : BuildEnv) :
    (env.compile.returncode ≠ 0 →
      build td tmp env =
        .error ("Failed to build test program " ++ td ++ "/main.c" ++ "\n" ++ env.compile.stdout) ∧
      strContains ("Failed to build test program " ++ td ++ "/main.c" ++ "\n" ++ env.compile.stdout)
        env.compile.stdout) ∧
    (env.compile.returncode = 0 → env.assembleReturncode ≠ 0 →
      build td tmp env = .error ("Failed to assemble test program " ++ td ++ "/main.c")) ∧
    (env.compile.returncode = 0 → env.assembleReturncode = 0 → env.linkReturncode ≠ 0 →
      build td tmp env = .error ("Failed to link test program " ++ td ++ "/main.c")) ∧
    (∀ ao lo, build td tmp ⟨env.compile, env.assembleReturncode, ao, env.linkReturncode, lo⟩ =
      build td tmp env) := by
  refine ⟨?_, ?_, ?_, ?_⟩
  · intro h
    constructor
    · simp [build, h, String.append_assoc]
    · exact strContains_of_append _
        ("Failed to build test program " ++ td ++ "/main.c" ++ "\n") _ ""
        (by simp [String.append_assoc])
  · intro h1 h2
    simp [build, h1, h2, String.append_assoc]
  · intro h1 h2 h3
    simp [build, h1, h2, h3, String.append_assoc]
  · intro ao lo
    simp [build]

theorem c4_build_stage_contract_witness :
    build "t" "m" ⟨⟨1, "diag"⟩, 0, "", 0, ""⟩ =
      .error ("Failed to build test program " ++ "t" ++ "/main.c" ++ "\n" ++ "diag") ∧
    strContains ("Failed to build test program " ++ "t" ++ "/main.c" ++ "\n" ++ "diag") "diag" :=
  (c4_build_stage_contract "t" "m" ⟨⟨1, "diag"⟩, 0, "", 0, ""⟩).1 (by decide)

/-- C10: `exit.expected`'s entire content goes through Python `int()`:
content that is an optionally signed integer surrounded by optional
whitespace (such as "1\n") parses to that integer and is used for the
comparison, while content `int()` rejects raises a `ValueError` while the
exit-code assertion's arguments are being evaluated, so the fixture is
recorded as an error — not as an exit-code mismatch failure. -/
theorem c10_exit_expected_int_parsing (w1 core w2 : List Char) (env : FixtureEnv) (s : String) :
    ((∀ c ∈ w1, pyIsSpace c = true) → (∀ c ∈ w2, pyIsSpace c = true) → core ≠ [] →
      (∀ c, core.head? = some c → pyIsSpace c = false) →
      (∀ c, core.getLast? = some c → pyIsSpace c = false) →
      pyInt (String.mk (w1 ++ core ++ w2)) = pyIntCore core ∧
      ∀ n d2, pyIntCore core = some n →
        expected_exit_code ⟨some (String.mk (w1 ++ core ++ w2)), d2⟩ = .ok n) ∧
    (env.mktempOk = true → buildOk env → env.dir.exitExpected = some s → pyInt s = none →
      fixtureOutcome env = .error ("invalid literal for int() with base 10: " ++ pyRepr s) ∧
      ∀ msg, fixtureOutcome env ≠ .failure msg) := by
  constructor
  · intro h1 h2 hne hh hl
    have hp : pyInt (String.mk (w1 ++ core ++ w2)) = pyIntCore core := by
      unfold pyInt
      rw [show (String.mk (w1 ++ core ++ w2)).data = w1 ++ core ++ w2 from rfl]
      rw [pyStrip_pad h1 h2 hne hh hl]
    refine ⟨hp, ?_⟩
    intro n d2 hcore
    simp only [expected_exit_code]
    rw [hp, hcore]
  · intro hmk hb hexit hparse
    obtain ⟨hb1, hb2, hb3⟩ := hb
    have houtcome : fixtureOutcome env =
        .error ("invalid literal for int() with base 10: " ++ pyRepr s) := by
      simp [fixtureOutcome, hmk, runTest, build, hb1, hb2, hb3, expected_exit_code, hexit, hparse]
    refine ⟨houtcome, ?_⟩
    intro msg
    rw [houtcome]
    intro hcontra
    exact Outcome.noConfusion hcontra

theorem c10_exit_expected_int_parsing_witness :
    pyInt (String.mk (([] : List Char) ++ ['1'] ++ ['\n'])) = pyIntCore ['1'] ∧
    expected_exit_code ⟨some (String.mk (([] : List Char) ++ ['1'] ++ ['\n'])), none⟩ = .ok 1 ∧
    fixtureOutcome ⟨"t", "m", true, ⟨some "abc", none⟩, ⟨⟨0, ""⟩, 0, "", 0, ""⟩, ⟨0, ""⟩⟩ =
      .error ("invalid literal for int() with base 10: " ++ pyRepr "abc") := by
  refine ⟨?_, ?_, ?_⟩
  · exact ((c10_exit_expected_int_parsing [] ['1'] ['\n']
      ⟨"t", "m", true, ⟨some "abc", none⟩, ⟨⟨0, ""⟩, 0, "", 0, ""⟩, ⟨0, ""⟩⟩ "abc").1
      (by decide) (by decide) (by decide) (by decide) (by decide)).1
  · exact ((c10_exit_expected_int_parsing [] ['1'] ['\n']
      ⟨"t", "m", true, ⟨some "abc", none⟩, ⟨⟨0, ""⟩, 0, "", 0, ""⟩, ⟨0, ""⟩⟩ "abc").1
      (by decide) (by decide) (by decide) (by decide) (by decide)).2 1 none (by decide)
  · exact ((c10_exit_expected_int_parsing [] ['1'] ['\n']
      ⟨"t", "m", true, ⟨some "abc", none⟩, ⟨⟨0, ""⟩, 0, "", 0, ""⟩, ⟨0, ""⟩⟩ "abc").2
      rfl ⟨rfl, rfl, rfl⟩ rfl (by decide)).1

/-- C3 counterexample: with the filesystem enumerating `002-b` before
`001-a`, the suite's fixtures are processed in that enumeration order —
not in lexicographic order — and swapping the enumeration changes the
processing order, falsifying "sorted order, regardless of the order in
which the filesystem enumerates the directories". -/
theorem c3_enumeration_order_counterexample :
    (discover_suites "s" [("s", ["002-b", "001-a"])]).map NamedTestSuite.tests =
      [["s/002-b", "s/001-a"]] ∧
    discover_suites "s" [("s", ["002-b", "001-a"])] ≠
      discover_suites "s" [("s", ["001-a", "002-b"])] := by
  refine ⟨rfl, by decide⟩

/-- C3 (amended): fixtures within a suite are kept and processed in the
order the filesystem enumeration (`os.walk`) yields their directories —
the code never sorts.  For a walk whose roots are distinct (as `os.walk`
over a real tree guarantees), each suite's test list is exactly its root's
qualifying directories, in enumeration order. -/
theorem c3_fixtures_in_walk_order (scriptDir : String) (walk : List (String × List String))
    (hnd : (walk.map Prod.fst).Nodup) :
    (discover_suites scriptDir walk).map NamedTestSuite.tests =
      walk.filterMap (fun rd =>
        if rd.2.filter qualifies = [] then none
        else some ((rd.2.filter qualifies).map (fun d => rd.1 ++ "/" ++ d))) := by
  unfold discover_suites collectTests
  rw [collectTests_go walk [] hnd (by simp), List.nil_append, List.map_map, List.map_filterMap]
  congr 1
  funext rd
  unfold suiteEntry
  by_cases hf : rd.2.filter qualifies = []
  · simp [hf]
  · simp [hf]

theorem c3_fixtures_in_walk_order_witness :
    (discover_suites "s" [("s/a", ["002-y", "001-x"]), ("s/b", ["003-z"])]).map
        NamedTestSuite.tests = [["s/a/002-y", "s/a/001-x"], ["s/b/003-z"]] := by
  have h := c3_fixtures_in_walk_order "s" [("s/a", ["002-y", "001-x"]), ("s/b", ["003-z"])]
    (by decide)
  exact h.trans (by decide)

/-- C6 counterexample: a fixture whose codegen stage fails while printing
"boom" is recorded as an error whose message does not contain the tool's
output — so the failure is NOT recorded "with the captured diagnostic
text" — although the subsequent fixture still runs (and passes). -/
theorem c6_stage2_diagnostic_missing :
    runSuite (fun t => if t = "s/001-a"
        then ⟨"s/001-a", "m1", true, ⟨none, none⟩, ⟨⟨0, ""⟩, 1, "boom", 0, ""⟩, ⟨0, ""⟩⟩
        else ⟨"s/002-b", "m2", true, ⟨none, none⟩, ⟨⟨0, ""⟩, 0, "", 0, ""⟩, ⟨0, ""⟩⟩)
      ⟨"root", ["s/001-a", "s/002-b"]⟩ =
      [.error "Failed to assemble test program s/001-a/main.c", .pass] ∧
    containsSub "Failed to assemble test program s/001-a/main.c" "boom" = false := by
  refine ⟨by decide, by decide⟩

/-- C6 (amended): a fixture whose translate stage fails is recorded as
that single fixture's error carrying the compiler's captured combined
output (codegen/link failures carry only a generic message), and every
other fixture in the suite — before or after it — still runs and records
its own outcome, unaffected. -/
theorem c6_build_failure_isolated (envOf : String → FixtureEnv) (name t : String)
    (pre post : List String)
    (hmk : (envOf t).mktempOk = true)
    (hc : (envOf t).buildEnv.compile.returncode ≠ 0) :
    runSuite envOf ⟨name, pre ++ t :: post⟩ =
      pre.map (fun x => fixtureOutcome (envOf x)) ++
      Outcome.error ("Failed to build test program " ++ (envOf t).testDir ++ "/main.c" ++ "\n" ++
        (envOf t).buildEnv.compile.stdout) ::
      post.map (fun x => fixtureOutcome (envOf x)) := by
  unfold runSuite
  rw [show (⟨name, pre ++ t :: post⟩ : NamedTestSuite).tests = pre ++ t :: post from rfl]
  rw [List.map_append, List.map_cons]
  have ht : fixtureOutcome (envOf t) =
      Outcome.error ("Failed to build test program " ++ (envOf t).testDir ++ "/main.c" ++ "\n" ++
        (envOf t).buildEnv.compile.stdout) := by
    simp [fixtureOutcome, hmk, runTest, build, hc, String.append_assoc]
  rw [ht]

theorem c6_build_failure_isolated_witness :
    runSuite (fun t => if t = "a"
        then ⟨"a", "m", true, ⟨none, none⟩, ⟨⟨1, "diag"⟩, 0, "", 0, ""⟩, ⟨0, ""⟩⟩
        else ⟨"b", "m", true, ⟨none, none⟩, ⟨⟨0, ""⟩, 0, "", 0, ""⟩, ⟨0, ""⟩⟩)
      ⟨"root", ["a", "b"]⟩ =
      [Outcome.error ("Failed to build test program a/main.c\ndiag"), Outcome.pass] := by
  have h := c6_build_failure_isolated
    (fun t => if t = "a"
        then ⟨"a", "m", true, ⟨none, none⟩, ⟨⟨1, "diag"⟩, 0, "", 0, ""⟩, ⟨0, ""⟩⟩
        else ⟨"b", "m", true, ⟨none, none⟩, ⟨⟨0, ""⟩, 0, "", 0, ""⟩, ⟨0, ""⟩⟩)
    "root" "a" [] ["b"] (by decide) (by decide)
  exact h.trans (by decide)

end Harness
